import Mathlib

/-!
Verification of the open-webui deployment repository: a shallow embedding of
the admin settings component `General.svelte` and of the two shell scripts
`debug-openwebui.sh` and `run-bedrock.sh`, together with theorems settling the
specification claims about them.
-/

namespace OpenWebUI

/-! ## Data model: the `RAGConfig` object bound by the settings form. -/

/-- The `RAGConfig` configuration object bound by the settings form in
`General.svelte`: four boolean flags, two enumerated string processing modes
and two numeric limits (the number inputs may be empty, hence `Option`). -/
structure RAGConfigData where
  USE_ADVANCED_RETRIEVAL : Bool
  ENABLE_QUERY_EXPANSION : Bool
  ENABLE_DOCUMENT_RERANKING : Bool
  ENABLE_SEMANTIC_CHUNKING : Bool
  CHAT_UPLOAD_PROCESSING_MODE : String
  KNOWLEDGE_BASE_PROCESSING_MODE : String
  FILE_MAX_SIZE : Option Int
  FILE_MAX_COUNT : Option Int
  deriving Repr, DecidableEq

/-- The `features` object of the global `$config` store, as far as this
component reads it: only the `enable_admin_export` flag, possibly absent. -/
structure Features where
  enable_admin_export : Option Bool
  deriving Repr, DecidableEq

/-- The global `$config` store value: an object whose `features` field may be
absent. The store itself may also be null, modelled by `Option StoreConfig`. -/
structure StoreConfig where
  features : Option Features
  deriving Repr, DecidableEq

/-- The value of the optional chain `$config?.features?.enable_admin_export`:
`none` models JavaScript `undefined` (some link of the chain absent). -/
def configExportFlag : Option StoreConfig → Option Bool
  | none => none
  | some c =>
    match c.features with
    | none => none
    | some f => f.enable_admin_export

/-- The guard `$config?.features?.enable_admin_export ?? true` of the
`Export Documents Workspace` section: the `??` operator defaults the
undefined chain to `true`. -/
def exportSectionRendered (cfg : Option StoreConfig) : Bool :=
  (configExportFlag cfg).getD true

/-- The interactive elements the component template can render. -/
inductive UIElement
  | exportButton
  | advancedRetrievalToggle
  | queryExpansionCheckbox
  | documentRerankingCheckbox
  | semanticChunkingCheckbox
  | chatUploadModeSelect
  | knowledgeBaseModeSelect
  | fileMaxSizeInput
  | fileMaxCountInput
  deriving Repr, DecidableEq

/-- The elements rendered by the template of `General.svelte`, following its
structure: the export section behind the `enable_admin_export` guard, then a
`{#if RAGConfig}` block holding the advanced-retrieval toggle, a
`{#if RAGConfig.USE_ADVANCED_RETRIEVAL}` sub-block with three checkboxes and
two selects, and the two file-upload-limit number inputs. -/
def render (cfg : Option StoreConfig) (rag : Option RAGConfigData) : List UIElement :=
  (if exportSectionRendered cfg then [UIElement.exportButton] else []) ++
  (match rag with
   | none => []
   | some r =>
     [UIElement.advancedRetrievalToggle] ++
     (if r.USE_ADVANCED_RETRIEVAL then
        [UIElement.queryExpansionCheckbox,
         UIElement.documentRerankingCheckbox,
         UIElement.semanticChunkingCheckbox,
         UIElement.chatUploadModeSelect,
         UIElement.knowledgeBaseModeSelect]
      else []) ++
     [UIElement.fileMaxSizeInput, UIElement.fileMaxCountInput])

/-- The option values of the two processing-mode `<select>` controls, in
template order. -/
def processingModeOptions : List String :=
  ["full_context", "chunked_vectorized", "hybrid"]

/-- The value written by choosing the `i`-th option of a processing-mode
select control. -/
def selectedOption (i : Fin 3) : String :=
  processingModeOptions.get (Fin.cast rfl i)

/-- The user interactions the form offers: the export button click, the four
checkboxes, the two selects (choosing one of their three options) and the two
number inputs (which may be cleared, hence `Option Int`). -/
inductive FormEvent
  | clickExportAll
  | toggleAdvancedRetrieval (b : Bool)
  | toggleQueryExpansion (b : Bool)
  | toggleDocumentReranking (b : Bool)
  | toggleSemanticChunking (b : Bool)
  | selectChatUploadMode (i : Fin 3)
  | selectKnowledgeBaseMode (i : Fin 3)
  | setFileMaxSize (v : Option Int)
  | setFileMaxCount (v : Option Int)
  deriving Repr, DecidableEq

/-- The observable effects a handler of the component can produce. The
commented-out export implementation would have produced `apiCall` and
`fileDownload` effects; the live code never does. -/
inductive Effect
  | toastInfo (msg : String)
  | callUpdateHandler
  | apiCall (endpoint : String)
  | fileDownload (name : String)
  deriving Repr, DecidableEq

/-- The update each event makes to the bound `RAGConfig` object, via the
`bind:checked` / `bind:value` directives; the export click binds nothing. -/
def applyEvent : FormEvent → RAGConfigData → RAGConfigData
  | FormEvent.clickExportAll, r => r
  | FormEvent.toggleAdvancedRetrieval b, r => { r with USE_ADVANCED_RETRIEVAL := b }
  | FormEvent.toggleQueryExpansion b, r => { r with ENABLE_QUERY_EXPANSION := b }
  | FormEvent.toggleDocumentReranking b, r => { r with ENABLE_DOCUMENT_RERANKING := b }
  | FormEvent.toggleSemanticChunking b, r => { r with ENABLE_SEMANTIC_CHUNKING := b }
  | FormEvent.selectChatUploadMode i, r => { r with CHAT_UPLOAD_PROCESSING_MODE := selectedOption i }
  | FormEvent.selectKnowledgeBaseMode i, r => { r with KNOWLEDGE_BASE_PROCESSING_MODE := selectedOption i }
  | FormEvent.setFileMaxSize v, r => { r with FILE_MAX_SIZE := v }
  | FormEvent.setFileMaxCount v, r => { r with FILE_MAX_COUNT := v }

/-- The effects each event's handler produces: the export button's `on:click`
only raises `toast.info('Export functionality not yet implemented')`; every
other control's `on:change` invokes `updateHandler()`. -/
def eventEffects : FormEvent → List Effect
  | FormEvent.clickExportAll =>
      [Effect.toastInfo "Export functionality not yet implemented"]
  | FormEvent.toggleAdvancedRetrieval _ => [Effect.callUpdateHandler]
  | FormEvent.toggleQueryExpansion _ => [Effect.callUpdateHandler]
  | FormEvent.toggleDocumentReranking _ => [Effect.callUpdateHandler]
  | FormEvent.toggleSemanticChunking _ => [Effect.callUpdateHandler]
  | FormEvent.selectChatUploadMode _ => [Effect.callUpdateHandler]
  | FormEvent.selectKnowledgeBaseMode _ => [Effect.callUpdateHandler]
  | FormEvent.setFileMaxSize _ => [Effect.callUpdateHandler]
  | FormEvent.setFileMaxCount _ => [Effect.callUpdateHandler]

/-- Whether an event writes to the bound `RAGConfig` object: every control of
the form except the export button carries a `bind:` directive on a
`RAGConfig` field. -/
def writesRAGConfig : FormEvent → Bool
  | FormEvent.clickExportAll => false
  | _ => true

/-- The default value of the `updateHandler` prop, `() => {}`: it produces no
effects. -/
def defaultUpdateHandler : Unit → List Effect := fun _ => []

/-- The default value of the `RAGConfig` prop: `null`. -/
def defaultRAGConfig : Option RAGConfigData := none

/-! ## Shell scripts: `debug-openwebui.sh` and `run-bedrock.sh`.

Each script is embedded as a function from an environment record (the facts
its checks observe) to the trace of commands it executes, plus an exit code
for `run-bedrock.sh`. -/

/-- The commands the two scripts execute. Inspection commands (`docker ps`,
`docker exec env`, `docker logs`, `docker exec ls`, `ping`, `curl`,
`docker info`, `docker images`, the `[ -f ... ]` test, `echo`, `sleep`)
are distinguished from the two Docker Compose commands that change the
container stack. -/
inductive Cmd
  | echoMsg (s : String)
  | fileCheck (path : String)
  | dockerInfoCheck
  | dockerImagesGrep (pat : String)
  | dockerPsGrep (pat : String)
  | dockerPsTable (namePat : String)
  | dockerExecEnvGrep (pat : String)
  | dockerLogsGrep (pat : String)
  | dockerExecListDir (dir : String)
  | dockerExecPing (host : String)
  | curlStatus (url : String)
  | sleepSeconds (n : Nat)
  | composeDown (composeFile : String)
  | composeUp (envFile composeFile : String)
  deriving Repr, DecidableEq

/-- Whether a command changes container state, configuration or data: only
the Docker Compose `down` and `up` invocations do; every other command the
scripts use merely reads and prints. -/
def modifiesState : Cmd → Bool
  | Cmd.composeDown _ => true
  | Cmd.composeUp _ _ => true
  | _ => false

/-- `true` when the char list starts with the pattern. -/
def charsStartWith : List Char → List Char → Bool
  | [], _ => true
  | _ :: _, [] => false
  | p :: ps, c :: cs => p == c && charsStartWith ps cs

/-- `true` when the pattern occurs as a contiguous run of the char list. -/
def charsContain (pat : List Char) : List Char → Bool
  | [] => charsStartWith pat []
  | c :: cs => charsStartWith pat (c :: cs) || charsContain pat cs

/-- `grep -q pat` on a single line of input: succeeds exactly when the
pattern occurs as a substring of the line. -/
def grepQ (pat line : String) : Bool :=
  charsContain pat.toList line.toList

/-- The message printed by the port-3000 check of `debug-openwebui.sh`:
`curl -s -o /dev/null -w <http_code> http://localhost:3000 | grep -q "500"`
branches on whether the printed status code contains `500`. -/
def portCheckMessage (httpCode : String) : String :=
  if grepQ "500" httpCode then "❌ Returns 500" else "✅ OK"

/-- The facts `debug-openwebui.sh` observes about the system: whether
`docker ps` lists `open-webui`, whether the container can ping the host,
whether its data directory is listable, and the status-code string printed
by `curl` for port 3000. -/
structure DebugEnv where
  containerRunning : Bool
  canReachHost : Bool
  dataDirAccessible : Bool
  httpCode : String
  deriving Repr, DecidableEq

/-- The trace of `debug-openwebui.sh`: a banner, the `docker ps` grep for
`open-webui`, then either the inspection sequence (details, environment,
logs, database directory, ping, port check) or the not-running help text,
and the closing list of common fixes. -/
def debugScript (env : DebugEnv) : List Cmd :=
  [Cmd.echoMsg "🔍 Open WebUI Debug Script",
   Cmd.echoMsg "=========================",
   Cmd.echoMsg "",
   Cmd.dockerPsGrep "open-webui"] ++
  (if env.containerRunning then
    [Cmd.echoMsg "✅ Container is running",
     Cmd.echoMsg "",
     Cmd.echoMsg "📦 Container Details:",
     Cmd.dockerPsTable "open-webui",
     Cmd.echoMsg "",
     Cmd.echoMsg "🔧 Environment Variables:",
     Cmd.dockerExecEnvGrep "(OLLAMA|OPENAI|WEBUI|DATABASE)",
     Cmd.echoMsg "",
     Cmd.echoMsg "📋 Recent Error Logs:",
     Cmd.dockerLogsGrep "(error|exception|failed|500)",
     Cmd.echoMsg "",
     Cmd.echoMsg "💾 Database Status:",
     Cmd.dockerExecListDir "/app/backend/data/"] ++
    (if env.dataDirAccessible then []
     else [Cmd.echoMsg "Cannot access data directory"]) ++
    [Cmd.echoMsg "",
     Cmd.echoMsg "🌐 Network Tests:",
     Cmd.echoMsg "Container can reach host: ",
     Cmd.dockerExecPing "host.docker.internal",
     Cmd.echoMsg (if env.canReachHost then "✅ Yes" else "❌ No"),
     Cmd.echoMsg "Port 3000 is accessible: ",
     Cmd.curlStatus "http://localhost:3000",
     Cmd.echoMsg (portCheckMessage env.httpCode)]
   else
    [Cmd.echoMsg "❌ Container is not running!",
     Cmd.echoMsg "",
     Cmd.echoMsg "🚀 To start the container, run:",
     Cmd.echoMsg "docker run -d -p 3000:8080 \\",
     Cmd.echoMsg "  -e ENABLE_OLLAMA_API=false \\",
     Cmd.echoMsg "  -e ENABLE_OPENAI_API=true \\",
     Cmd.echoMsg "  -e OPENAI_API_BASE_URL=http://host.docker.internal:8000/api/v1 \\",
     Cmd.echoMsg "  -e OPENAI_API_KEY=bedrock \\",
     Cmd.echoMsg "  -v open-webui:/app/backend/data \\",
     Cmd.echoMsg "  --name open-webui \\",
     Cmd.echoMsg "  --restart always \\",
     Cmd.echoMsg "  open-webui"]) ++
  [Cmd.echoMsg "",
   Cmd.echoMsg "💡 Common fixes for 500 error:",
   Cmd.echoMsg "1. Clear browser cache and cookies",
   Cmd.echoMsg "2. Try incognito mode",
   Cmd.echoMsg "3. Access http://localhost:3000/ollama first",
   Cmd.echoMsg "4. Remove and recreate the volume",
   Cmd.echoMsg "5. Check if Bedrock Gateway is running on port 8000"]

/-- The facts `run-bedrock.sh` observes: whether `.env.bedrock` exists,
whether `docker info` succeeds, whether `docker images` lists the
`bedrock-gateway` and `open-webui` images, and whether `docker ps` lists the
two containers after `docker-compose up`. -/
structure BedrockEnv where
  envFileExists : Bool
  dockerRunning : Bool
  imagesHaveBedrockGateway : Bool
  imagesHaveOpenWebui : Bool
  psHasBedrockGateway : Bool
  psHasOpenWebui : Bool
  deriving Repr, DecidableEq

/-- The opening banner of `run-bedrock.sh`. -/
def bedrockIntro : List Cmd :=
  [Cmd.echoMsg "Starting Open WebUI with AWS Bedrock Integration",
   Cmd.echoMsg ""]

/-- The error text printed when `.env.bedrock` is missing. -/
def envFileMissingMsgs : List Cmd :=
  [Cmd.echoMsg "Error: .env.bedrock file not found!",
   Cmd.echoMsg "",
   Cmd.echoMsg "Please create a .env.bedrock file with your AWS credentials:",
   Cmd.echoMsg "",
   Cmd.echoMsg "AWS_ACCESS_KEY_ID=your_aws_access_key_here",
   Cmd.echoMsg "AWS_SECRET_ACCESS_KEY=your_aws_secret_key_here",
   Cmd.echoMsg "AWS_REGION=us-east-1",
   Cmd.echoMsg "WEBUI_SECRET_KEY=your_random_secret_key_here",
   Cmd.echoMsg ""]

/-- The error text printed when Docker is not running. -/
def dockerNotRunningMsgs : List Cmd :=
  [Cmd.echoMsg "Error: Docker is not running!",
   Cmd.echoMsg "Please start Docker and try again."]

/-- The error text printed when the `bedrock-gateway` image is absent. -/
def bedrockImageMissingMsgs : List Cmd :=
  [Cmd.echoMsg "Error: bedrock-gateway image not found!",
   Cmd.echoMsg "",
   Cmd.echoMsg "Please build it first:",
   Cmd.echoMsg "1. Clone: git clone https://github.com/aws-samples/bedrock-access-gateway.git",
   Cmd.echoMsg "2. Build: cd bedrock-access-gateway/src && docker build . -f Dockerfile_ecs -t bedrock-gateway",
   Cmd.echoMsg ""]

/-- The error text printed when the `open-webui` image is absent. -/
def webuiImageMissingMsgs : List Cmd :=
  [Cmd.echoMsg "Error: open-webui image not found!",
   Cmd.echoMsg "",
   Cmd.echoMsg "Please build it first:",
   Cmd.echoMsg "docker build -t open-webui .",
   Cmd.echoMsg ""]

/-- The success text printed when both containers are up after the compose
start. -/
def startedOkMsgs : List Cmd :=
  [Cmd.echoMsg "",
   Cmd.echoMsg "Services started successfully!",
   Cmd.echoMsg "",
   Cmd.echoMsg "Open WebUI: http://localhost:3000",
   Cmd.echoMsg "Bedrock Gateway API: http://localhost:8000/docs",
   Cmd.echoMsg "",
   Cmd.echoMsg "First time setup:",
   Cmd.echoMsg "1. Create an account at http://localhost:3000",
   Cmd.echoMsg "2. AWS Bedrock models should appear automatically",
   Cmd.echoMsg "",
   Cmd.echoMsg "To stop: docker-compose -f docker-compose.bedrock.yaml down",
   Cmd.echoMsg "View logs: docker-compose -f docker-compose.bedrock.yaml logs -f"]

/-- The failure text printed when a container is missing after the compose
start. -/
def startFailedMsgs : List Cmd :=
  [Cmd.echoMsg "",
   Cmd.echoMsg "Error: Services failed to start!",
   Cmd.echoMsg "Check logs with: docker-compose -f docker-compose.bedrock.yaml logs"]

/-- The compose sequence of `run-bedrock.sh` once all four prerequisite
checks have passed: `docker-compose down`, `docker-compose up` with the env
file, a five-second wait, and the post-start `docker ps` greps (the second
one only when the first matched, as `&&` short-circuits). -/
def bedrockStartActions (env : BedrockEnv) : List Cmd :=
  [Cmd.echoMsg "Stopping any existing containers...",
   Cmd.composeDown "docker-compose.bedrock.yaml",
   Cmd.echoMsg "Starting services...",
   Cmd.composeUp ".env.bedrock" "docker-compose.bedrock.yaml",
   Cmd.echoMsg "",
   Cmd.echoMsg "Waiting for services to start...",
   Cmd.sleepSeconds 5,
   Cmd.dockerPsGrep "bedrock-gateway"] ++
  (if env.psHasBedrockGateway then [Cmd.dockerPsGrep "open-webui"] else [])

/-- `run-bedrock.sh`: the trace of commands it executes and its exit code.
Four prerequisite checks run in order — `.env.bedrock` present, Docker
running, `bedrock-gateway` image present, `open-webui` image present — and
the first failing one prints its error text and exits 1; when all pass the
script runs the compose sequence and exits 0 or 1 according to the
post-start `docker ps` checks. -/
def runBedrock (env : BedrockEnv) : List Cmd × Nat :=
  let p0 := bedrockIntro ++ [Cmd.fileCheck ".env.bedrock"]
  if env.envFileExists = false then
    (p0 ++ envFileMissingMsgs, 1)
  else
    let p1 := p0 ++ [Cmd.dockerInfoCheck]
    if env.dockerRunning = false then
      (p1 ++ dockerNotRunningMsgs, 1)
    else
      let p2 := p1 ++ [Cmd.dockerImagesGrep "bedrock-gateway"]
      if env.imagesHaveBedrockGateway = false then
        (p2 ++ bedrockImageMissingMsgs, 1)
      else
        let p3 := p2 ++ [Cmd.dockerImagesGrep "open-webui"]
        if env.imagesHaveOpenWebui = false then
          (p3 ++ webuiImageMissingMsgs, 1)
        else
          if env.psHasBedrockGateway && env.psHasOpenWebui then
            (p3 ++ bedrockStartActions env ++ startedOkMsgs, 0)
          else
            (p3 ++ bedrockStartActions env ++ startFailedMsgs, 1)

/-! ## Theorems. -/

/-- The export button is rendered exactly when its section guard holds; no
other part of the template emits it. -/
theorem mem_render_export (cfg : Option StoreConfig) (rag : Option RAGConfigData) :
    UIElement.exportButton ∈ render cfg rag ↔ exportSectionRendered cfg = true := by
  cases rag with
  | none => cases he : exportSectionRendered cfg <;> simp [render, he]
  | some r =>
      cases he : exportSectionRendered cfg <;> cases hr : r.USE_ADVANCED_RETRIEVAL <;>
        simp [render, he, hr]

/-- Claim C1: clicking the Export All button only raises the informational
"not implemented" toast: the handler's effect list is exactly that toast, so
no API call is made and no file download is produced, and the bound
RAGConfig object is unchanged. -/
theorem export_click_is_stub (r : RAGConfigData) :
    eventEffects FormEvent.clickExportAll
        = [Effect.toastInfo "Export functionality not yet implemented"] ∧
    applyEvent FormEvent.clickExportAll r = r ∧
    (∀ ep, Effect.apiCall ep ∉ eventEffects FormEvent.clickExportAll) ∧
    (∀ f, Effect.fileDownload f ∉ eventEffects FormEvent.clickExportAll) := by
  refine ⟨rfl, rfl, ?_, ?_⟩ <;> intro x <;> simp [eventEffects]

/-- Claim C3: each of the five advanced-retrieval sub-options (the Query
Expansion, Document Reranking and Semantic Chunking checkboxes and the two
processing-mode selects) is rendered if and only if
`RAGConfig.USE_ADVANCED_RETRIEVAL` is true, for every state of the bound
configuration and of the export-section guard. -/
theorem advanced_suboptions_iff (cfg : Option StoreConfig) (r : RAGConfigData) :
    (UIElement.queryExpansionCheckbox ∈ render cfg (some r)
        ↔ r.USE_ADVANCED_RETRIEVAL = true) ∧
    (UIElement.documentRerankingCheckbox ∈ render cfg (some r)
        ↔ r.USE_ADVANCED_RETRIEVAL = true) ∧
    (UIElement.semanticChunkingCheckbox ∈ render cfg (some r)
        ↔ r.USE_ADVANCED_RETRIEVAL = true) ∧
    (UIElement.chatUploadModeSelect ∈ render cfg (some r)
        ↔ r.USE_ADVANCED_RETRIEVAL = true) ∧
    (UIElement.knowledgeBaseModeSelect ∈ render cfg (some r)
        ↔ r.USE_ADVANCED_RETRIEVAL = true) := by
  cases hr : r.USE_ADVANCED_RETRIEVAL <;> cases he : exportSectionRendered cfg <;>
    simp [render, hr, he]

/-- Claim C4: the select controls can only write one of the three enumerated
mode strings, so membership of both processing modes in
`processingModeOptions` is preserved by every form interaction. -/
theorem processing_mode_invariant (e : FormEvent) (r : RAGConfigData)
    (h1 : r.CHAT_UPLOAD_PROCESSING_MODE ∈ processingModeOptions)
    (h2 : r.KNOWLEDGE_BASE_PROCESSING_MODE ∈ processingModeOptions) :
    (applyEvent e r).CHAT_UPLOAD_PROCESSING_MODE ∈ processingModeOptions ∧
    (applyEvent e r).KNOWLEDGE_BASE_PROCESSING_MODE ∈ processingModeOptions := by
  have hsel : ∀ i : Fin 3, selectedOption i ∈ processingModeOptions := by decide
  cases e <;>
    first
      | exact ⟨h1, h2⟩
      | exact ⟨hsel _, h2⟩
      | exact ⟨h1, hsel _⟩

/-- A sample configuration used to witness the invariant theorems at a
concrete input. -/
def sampleRAG : RAGConfigData :=
  { USE_ADVANCED_RETRIEVAL := true
    ENABLE_QUERY_EXPANSION := false
    ENABLE_DOCUMENT_RERANKING := false
    ENABLE_SEMANTIC_CHUNKING := false
    CHAT_UPLOAD_PROCESSING_MODE := "full_context"
    KNOWLEDGE_BASE_PROCESSING_MODE := "hybrid"
    FILE_MAX_SIZE := none
    FILE_MAX_COUNT := none }

/-- Witness for the processing-mode invariant at a concrete event and
configuration. -/
theorem processing_mode_invariant_witness :
    (applyEvent (FormEvent.selectChatUploadMode 1) sampleRAG).CHAT_UPLOAD_PROCESSING_MODE
        ∈ processingModeOptions ∧
    (applyEvent (FormEvent.selectChatUploadMode 1) sampleRAG).KNOWLEDGE_BASE_PROCESSING_MODE
        ∈ processingModeOptions :=
  processing_mode_invariant (FormEvent.selectChatUploadMode 1) sampleRAG
    (by decide) (by decide)

/-- Claim C5: every event that writes a RAGConfig field through a `bind:`
directive produces exactly one effect, the `updateHandler()` invocation of
its `on:change` handler — so every write is persisted through the callback
and through nothing else. -/
theorem write_triggers_updateHandler (e : FormEvent)
    (h : writesRAGConfig e = true) :
    eventEffects e = [Effect.callUpdateHandler] := by
  cases e <;> simp_all [writesRAGConfig, eventEffects]

/-- Witness for the update-callback theorem at a concrete write event. -/
theorem write_triggers_updateHandler_witness :
    eventEffects (FormEvent.toggleAdvancedRetrieval true)
      = [Effect.callUpdateHandler] :=
  write_triggers_updateHandler (FormEvent.toggleAdvancedRetrieval true) rfl

/-- Claim C9: the Export Documents Workspace section is rendered exactly
when `$config?.features?.enable_admin_export` is not `false`; when the
store, its `features` object or the flag is absent, the button is shown. -/
theorem export_button_guard (cfg : Option StoreConfig) (rag : Option RAGConfigData) :
    (UIElement.exportButton ∈ render cfg rag ↔ configExportFlag cfg ≠ some false) ∧
    UIElement.exportButton ∈ render none rag ∧
    UIElement.exportButton ∈ render (some ⟨none⟩) rag ∧
    UIElement.exportButton ∈ render (some ⟨some ⟨none⟩⟩) rag := by
  refine ⟨?_, ?_, ?_, ?_⟩
  · rw [mem_render_export]
    cases hf : configExportFlag cfg with
    | none => simp [exportSectionRendered, hf]
    | some b => cases b <;> simp [exportSectionRendered, hf]
  · rw [mem_render_export]; rfl
  · rw [mem_render_export]; rfl
  · rw [mem_render_export]; rfl

/-- Claim C10: the component's props default to a no-op `updateHandler` and
a null `RAGConfig`, and with the null default the whole configuration
section is skipped: at most the export button is rendered. -/
theorem null_ragconfig_renders_export_only (cfg : Option StoreConfig) :
    defaultRAGConfig = none ∧
    defaultUpdateHandler () = [] ∧
    render cfg defaultRAGConfig
      = (if exportSectionRendered cfg then [UIElement.exportButton] else []) := by
  refine ⟨rfl, rfl, ?_⟩
  cases he : exportSectionRendered cfg <;> simp [render, defaultRAGConfig, he]

/-- Claim C2: the four prerequisite checks of `run-bedrock.sh` run in order
(env file, Docker daemon, gateway image, webui image); the first failing one
prints its error text and exits 1, and whenever any prerequisite is absent
the script exits 1 without ever invoking `docker-compose up`. -/
theorem run_bedrock_prereq_checks (env : BedrockEnv) :
    (env.envFileExists = false →
        runBedrock env
          = (bedrockIntro ++ [Cmd.fileCheck ".env.bedrock"]
              ++ envFileMissingMsgs, 1)) ∧
    (env.envFileExists = true → env.dockerRunning = false →
        runBedrock env
          = (bedrockIntro ++ [Cmd.fileCheck ".env.bedrock", Cmd.dockerInfoCheck]
              ++ dockerNotRunningMsgs, 1)) ∧
    (env.envFileExists = true → env.dockerRunning = true →
        env.imagesHaveBedrockGateway = false →
        runBedrock env
          = (bedrockIntro ++ [Cmd.fileCheck ".env.bedrock", Cmd.dockerInfoCheck,
              Cmd.dockerImagesGrep "bedrock-gateway"]
              ++ bedrockImageMissingMsgs, 1)) ∧
    (env.envFileExists = true → env.dockerRunning = true →
        env.imagesHaveBedrockGateway = true → env.imagesHaveOpenWebui = false →
        runBedrock env
          = (bedrockIntro ++ [Cmd.fileCheck ".env.bedrock", Cmd.dockerInfoCheck,
              Cmd.dockerImagesGrep "bedrock-gateway", Cmd.dockerImagesGrep "open-webui"]
              ++ webuiImageMissingMsgs, 1)) ∧
    ((env.envFileExists = false ∨ env.dockerRunning = false ∨
      env.imagesHaveBedrockGateway = false ∨ env.imagesHaveOpenWebui = false) →
        (runBedrock env).2 = 1 ∧
        ∀ ef cf, Cmd.composeUp ef cf ∉ (runBedrock env).1) := by
  obtain ⟨a, b, c, d, e, f⟩ := env
  cases a <;> cases b <;> cases c <;> cases d <;>
    simp [runBedrock, bedrockStartActions, bedrockIntro, envFileMissingMsgs,
      dockerNotRunningMsgs, bedrockImageMissingMsgs, webuiImageMissingMsgs,
      startedOkMsgs, startFailedMsgs]

/-- Witness for the prerequisite-check theorem: with `.env.bedrock` absent
the script prints the env-file error and exits 1. -/
theorem run_bedrock_prereq_checks_witness :
    runBedrock ⟨false, true, true, true, true, true⟩
      = (bedrockIntro ++ [Cmd.fileCheck ".env.bedrock"] ++ envFileMissingMsgs, 1) :=
  (run_bedrock_prereq_checks ⟨false, true, true, true, true, true⟩).1 rfl

/-- Claim C6: once all four prerequisite checks pass, the only state-changing
commands in the trace of `run-bedrock.sh` are the `docker-compose down` of
any existing stack and the `docker-compose up` with env file `.env.bedrock`
and compose file `docker-compose.bedrock.yaml`, in that order. -/
theorem run_bedrock_state_changes (env : BedrockEnv)
    (h1 : env.envFileExists = true) (h2 : env.dockerRunning = true)
    (h3 : env.imagesHaveBedrockGateway = true) (h4 : env.imagesHaveOpenWebui = true) :
    (runBedrock env).1.filter modifiesState
      = [Cmd.composeDown "docker-compose.bedrock.yaml",
         Cmd.composeUp ".env.bedrock" "docker-compose.bedrock.yaml"] := by
  cases he : env.psHasBedrockGateway <;> cases hf : env.psHasOpenWebui <;>
    simp [h1, h2, h3, h4, he, hf, runBedrock, bedrockStartActions, bedrockIntro,
      startedOkMsgs, startFailedMsgs, modifiesState]

/-- Witness for the state-change theorem with every check passing. -/
theorem run_bedrock_state_changes_witness :
    (runBedrock ⟨true, true, true, true, true, true⟩).1.filter modifiesState
      = [Cmd.composeDown "docker-compose.bedrock.yaml",
         Cmd.composeUp ".env.bedrock" "docker-compose.bedrock.yaml"] :=
  run_bedrock_state_changes ⟨true, true, true, true, true, true⟩ rfl rfl rfl rfl

/-- Claim C7: every command `debug-openwebui.sh` executes, in every state of
the system, is an inspection command: none of them modifies container state,
configuration or data. -/
theorem debug_script_readonly (env : DebugEnv) :
    ((debugScript env).all fun c => !modifiesState c) = true := by
  obtain ⟨cr, ch, da, code⟩ := env
  cases cr <;> cases da <;> simp [debugScript, modifiesState]

/-- Claim C8: the port-3000 check reports `❌ Returns 500` exactly when the
curl status-code output contains `500` as a substring; in every other case,
including the `000` and empty outputs of a failed connection, it reports
`✅ OK`. -/
theorem port_check_report (code : String) :
    (portCheckMessage code = "❌ Returns 500" ↔ grepQ "500" code = true) ∧
    (portCheckMessage code = "✅ OK" ↔ grepQ "500" code = false) ∧
    portCheckMessage "000" = "✅ OK" ∧
    portCheckMessage "" = "✅ OK" := by
  refine ⟨?_, ?_, ?_, ?_⟩
  · cases hg : grepQ "500" code <;> simp [portCheckMessage, hg]
  · cases hg : grepQ "500" code <;> simp [portCheckMessage, hg]
  · decide
  · decide

end OpenWebUI
